import Mathlib

/-!
Shallow embedding of `restarter` (src/main.ts): a supervisor that spawns a
child process, probes its health periodically, and restarts it on failure up
to a retry budget.  We embed the `Config` record, the `checkHealth` probe
(with JavaScript exceptions modelled by `Except Unit`), the `monitor` loop as
a step function over an explicit loop state driven by a list of events, and
the CLI conversion `Number(args["max-retries"]) || -1`.
-/

namespace Restarter

/-- The `Config` interface of src/main.ts (lines 6-13).  `healthCheckInterval`
is carried for completeness; none of the verdict logic depends on its value. -/
structure Config where
  command : List String
  healthCheckCommand : Option (List String) := none
  healthCheckUrl : Option String := none
  healthCheckInterval : Nat := 5000
  maxRetries : Int := -1
  expectedStatusCodes : Option (List Nat) := none
deriving DecidableEq, Repr

/-- JavaScript truthiness of an optional string field:
`undefined` and `""` are falsy, every other string is truthy.
Used for `if (this.config.healthCheckUrl)`. -/
def truthyStr : Option String → Bool
  | none => false
  | some s => s ≠ ""

/-- Outcome of the `fetch(this.config.healthCheckUrl)` call: either a
response with a status code, or a thrown network/transport error
(timeout, connection refused, DNS failure). -/
inductive HttpResult where
  | response (status : Nat)
  | netFailure
deriving DecidableEq, Repr

/-- Outcome of running the health-check command via `command.output()`:
either the subprocess exited (with `success` = exit status zero), or the
launch itself threw. -/
inductive CmdResult where
  | exited (success : Bool)
  | launchFailure
deriving DecidableEq, Repr

/-- Outcome of `Promise.race([this.process.status, Promise.resolve(undefined)])`:
the already-settled `undefined` promise wins while the child is still running,
the status promise wins once the child has exited, and the query may throw. -/
inductive StatusQuery where
  | stillRunning
  | exitedAlready
  | queryThrows
deriving DecidableEq, Repr

/-- The external world a single `checkHealth()` call observes: the three
probe capabilities (HTTP client, subprocess runner, process-status query)
plus whether `this.process` is non-null. -/
structure ProbeEnv where
  http : HttpResult
  cmd : CmdResult
  processPresent : Bool
  status : StatusQuery
deriving DecidableEq, Repr

/-- A JavaScript computation that may throw: `Except Unit α` with `.error ()`
standing for any thrown exception (the code never inspects the value). -/
abbrev JsResult (α : Type) := Except Unit α

/-- A `try { body } catch { handler }` block. -/
def tryCatch {α : Type} (body handler : JsResult α) : JsResult α :=
  match body with
  | .ok a => .ok a
  | .error _ => handler

/-- `fetch(this.config.healthCheckUrl)` reduced to its status code. -/
def fetchUrl (env : ProbeEnv) : JsResult Nat :=
  match env.http with
  | .response s => .ok s
  | .netFailure => .error ()

/-- `(await command.output()).success` for the health-check command. -/
def runHealthCommand (env : ProbeEnv) : JsResult Bool :=
  match env.cmd with
  | .exited ok => .ok ok
  | .launchFailure => .error ()

/-- The non-blocking status race; `none` models the `undefined` branch
(child still running), `some ()` a settled exit status. -/
def raceStatus (env : ProbeEnv) : JsResult (Option Unit) :=
  match env.status with
  | .stillRunning => .ok none
  | .exitedAlready => .ok (some ())
  | .queryThrows => .error ()

/-- `response.ok`: true exactly when the status is in [200, 299]. -/
def respOk (status : Nat) : Bool := 200 ≤ status && status ≤ 299

/-- `ProcessManager.checkHealth` (src/main.ts lines 49-95).  Strategy
selection and each `try`/`catch` mirror the source; the `finally` clause
only releases the response body and has no effect on the verdict. -/
def checkHealth (cfg : Config) (env : ProbeEnv) : JsResult Bool :=
  if truthyStr cfg.healthCheckUrl then
    tryCatch
      (match fetchUrl env with
        | .ok status =>
          match cfg.expectedStatusCodes with
          | some codes => .ok (codes.contains status)
          | none => .ok (respOk status)
        | .error e => .error e)
      (.ok false)
  else if cfg.healthCheckCommand.isSome then
    tryCatch (runHealthCommand env) (.ok false)
  else if !env.processPresent then
    .ok false
  else
    tryCatch
      (match raceStatus env with
        | .ok st => .ok st.isNone
        | .error e => .error e)
      (.ok false)

/-! ## The monitor loop

`ProcessManager.monitor` (src/main.ts lines 108-171) is an asynchronous loop.
We embed it at the granularity of its suspension points: each iteration either
observes the cancellation flag already set at the loop top, sees the
cancellation signal arrive during the interval wait (the `Promise.race` of the
delay against the abort listener rejects with "Monitoring stopped", which the
`catch` turns into a clean return), or completes the wait and obtains a
health verdict from `checkHealth`. -/

/-- The mutable state the loop reads and writes: `retryCount` and the
abort flag, plus instrumentation counting `stop()` invocations and restart
attempts (kill + `startProcess`). -/
structure LoopState where
  retryCount : Nat
  aborted : Bool
  stopCalls : Nat
  restarts : Nat
deriving DecidableEq, Repr

/-- State at `ProcessManager` construction: `retryCount = 0`, fresh
`AbortController`, no `stop()` call or restart has happened. -/
def initState : LoopState := ⟨0, false, 0, 0⟩

/-- What one iteration of the loop observes. -/
inductive LoopEvent where
  | stopDuringWait
  | probe (healthy : Bool)
deriving DecidableEq, Repr

/-- How one iteration (or the whole loop) ends. -/
inductive LoopResult where
  | running (s : LoopState)
  | stopped (s : LoopState)
  | failed (s : LoopState)
deriving DecidableEq, Repr

/-- `ProcessManager.stop` (src/main.ts lines 97-106): aborts the controller
and best-effort kills the child (kill failures swallowed, no state effect
we track beyond the flag); the invocation itself is counted. -/
def stopEffect (s : LoopState) : LoopState :=
  { s with aborted := true, stopCalls := s.stopCalls + 1 }

/-- One iteration of `ProcessManager.monitor`.  In source order: the
loop-top abort check (lines 112-114); the abortable wait (117-124) whose
rejection is caught and returned (163-166); the probe (126); on an
unhealthy verdict, the terminal check `maxRetries !== -1 && retryCount >=
maxRetries` invoking `stop()` and throwing "Max retries reached" which the
`catch` rethrows (131-139, 167-168); otherwise increment `retryCount`,
kill the old child and spawn a new one (141-158); on a healthy verdict,
reset `retryCount` to 0 (159-162). -/
def monitorStep (maxRetries : Int) (s : LoopState) (ev : LoopEvent) : LoopResult :=
  if s.aborted then
    .stopped s
  else
    match ev with
    | .stopDuringWait => .stopped (stopEffect s)
    | .probe healthy =>
      if healthy then
        .running { s with retryCount := 0 }
      else if maxRetries ≠ -1 ∧ (s.retryCount : Int) ≥ maxRetries then
        .failed (stopEffect s)
      else
        .running { s with retryCount := s.retryCount + 1, restarts := s.restarts + 1 }

/-- Runs the loop over a list of observed events; `.running` means the
events were exhausted with the loop still alive. -/
def monitorRun (maxRetries : Int) (s : LoopState) : List LoopEvent → LoopResult
  | [] => .running s
  | ev :: evs =>
    match monitorStep maxRetries s ev with
    | .running t => monitorRun maxRetries t evs
    | .stopped t => .stopped t
    | .failed t => .failed t

/-! ## CLI conversion of `--max-retries` -/

/-- `Number(args["max-retries"]) || -1` (src/main.ts line 244).  The
argument is the result of the JavaScript `Number` conversion with `none`
standing for `NaN`; `0` and `NaN` are falsy, so `||` replaces them with
`-1`. -/
def mainMaxRetries : Option Int → Int
  | none => -1
  | some v => if v = 0 then -1 else v

/-! ## Concrete configurations and environments used by witnesses -/

/-- A configuration with an HTTP probe and no explicit status codes. -/
def cfgUrlOnly : Config :=
  { command := ["node", "srv.js"], healthCheckUrl := some "http://h" }

/-- A configuration with an HTTP probe and an explicit status-code set. -/
def cfgCodes (codes : List Nat) : Config :=
  { command := ["node", "srv.js"], healthCheckUrl := some "http://h",
    expectedStatusCodes := some codes }

/-- A configuration with a command probe only. -/
def cfgCmd : Config :=
  { command := ["node", "srv.js"], healthCheckCommand := some ["curl", "h"] }

/-- A configuration with no probe at all. -/
def cfgBare : Config := { command := ["sleep", "2"] }

/-- An environment whose HTTP probe answered with status `st`. -/
def envResp (st : Nat) : ProbeEnv :=
  { http := .response st, cmd := .exited true, processPresent := true,
    status := .stillRunning }

/-- An environment whose HTTP probe threw a network error. -/
def envNetFail : ProbeEnv :=
  { http := .netFailure, cmd := .exited true, processPresent := true,
    status := .stillRunning }

/-- An environment whose health-check command exited with the given success. -/
def envCmd (ok : Bool) : ProbeEnv :=
  { http := .netFailure, cmd := .exited ok, processPresent := true,
    status := .stillRunning }

/-- An environment whose health-check command failed to launch. -/
def envCmdLaunchFail : ProbeEnv :=
  { http := .netFailure, cmd := .launchFailure, processPresent := true,
    status := .stillRunning }

/-- An environment for the bare liveness probe. -/
def envLive (present : Bool) (st : StatusQuery) : ProbeEnv :=
  { http := .netFailure, cmd := .exited true, processPresent := present,
    status := st }

/-! ## Claims -/

/-- C1: whenever `maxRetries ≠ -1` and an unhealthy probe is observed with
`retryCount ≥ maxRetries`, the iteration is terminal: `stop()` is invoked
exactly once more (setting the abort flag) and the loop fails with the
"Max retries reached" condition instead of restarting. -/
theorem max_retries_terminal (mr : Int) (s : LoopState)
    (hab : s.aborted = false) (hmr : mr ≠ -1)
    (hge : (s.retryCount : Int) ≥ mr) :
    monitorStep mr s (.probe false) = .failed (stopEffect s) := by
  simp [monitorStep, hab, hmr, hge]

/-- C1 witness: with `maxRetries = 1`, the second consecutive unhealthy
probe from the initial state (one restart already attempted) is terminal
with exactly one `stop()` call, and the general theorem applies at the
state reached after the first restart. -/
theorem max_retries_terminal_witness :
    monitorRun 1 initState [.probe false, .probe false] = .failed ⟨1, true, 1, 1⟩
    ∧ monitorStep 1 ⟨1, false, 0, 1⟩ (.probe false) = .failed ⟨1, true, 1, 1⟩ :=
  ⟨by decide, max_retries_terminal 1 ⟨1, false, 0, 1⟩ rfl (by decide) (by decide)⟩

/-- C2: once the cancellation signal is set, the very next iteration returns
`stopped` with the state untouched (in particular no further restart and no
further `stop()` call), regardless of any further events; and a `stop()`
arriving during the interval wait abandons the wait and returns instead of
completing further probe cycles. -/
theorem cancellation_terminates (mr : Int) (s : LoopState) :
    (∀ ev evs, s.aborted = true → monitorRun mr s (ev :: evs) = .stopped s)
    ∧ (s.aborted = false →
        monitorStep mr s .stopDuringWait = .stopped (stopEffect s)) := by
  constructor
  · intro ev evs hab
    simp [monitorRun, monitorStep, hab]
  · intro hab
    simp [monitorStep, hab]

/-- C2 witness: an aborted state ignores two pending unhealthy probes and
stops unchanged; a live state stops as soon as the signal arrives mid-wait. -/
theorem cancellation_terminates_witness :
    monitorRun 5 ⟨2, true, 1, 2⟩ [.probe false, .probe false] = .stopped ⟨2, true, 1, 2⟩
    ∧ monitorStep 5 ⟨0, false, 0, 0⟩ .stopDuringWait = .stopped ⟨0, true, 1, 0⟩ :=
  ⟨(cancellation_terminates 5 ⟨2, true, 1, 2⟩).1 (.probe false) [.probe false] rfl,
   (cancellation_terminates 5 ⟨0, false, 0, 0⟩).2 rfl⟩

/-- C3: from a live state, a healthy probe resets `retryCount` to 0 whatever
its value; an unhealthy non-terminal probe increments it by exactly one; and
every iteration other than a healthy probe that leaves the loop running
never decreases it. -/
theorem retry_count_discipline (mr : Int) (s : LoopState)
    (hab : s.aborted = false) :
    (monitorStep mr s (.probe true) = .running { s with retryCount := 0 })
    ∧ (¬(mr ≠ -1 ∧ (s.retryCount : Int) ≥ mr) →
        monitorStep mr s (.probe false)
          = .running { s with retryCount := s.retryCount + 1,
                              restarts := s.restarts + 1 })
    ∧ (∀ ev t, monitorStep mr s ev = .running t → ev ≠ .probe true →
        s.retryCount ≤ t.retryCount) := by
  refine ⟨by simp [monitorStep, hab], fun hterm => by simp [monitorStep, hab, hterm], ?_⟩
  intro ev t hstep hne
  cases ev with
  | stopDuringWait => simp [monitorStep, hab] at hstep
  | probe healthy =>
    cases healthy with
    | true => exact absurd rfl hne
    | false =>
      by_cases hterm : mr ≠ -1 ∧ (s.retryCount : Int) ≥ mr
      · simp [monitorStep, hab, hterm] at hstep
      · simp only [monitorStep, hab, Bool.false_eq_true, if_false, if_neg hterm,
          Bool.if_false_left, LoopResult.running.injEq] at hstep
        subst hstep
        simp

/-- C3 witness: at `retryCount = 2`, a healthy probe resets to 0, an
unhealthy non-terminal probe moves to 3, and the latter step does not
decrease the counter. -/
theorem retry_count_discipline_witness :
    monitorStep 9 ⟨2, false, 0, 2⟩ (.probe true) = .running ⟨0, false, 0, 2⟩
    ∧ monitorStep 9 ⟨2, false, 0, 2⟩ (.probe false) = .running ⟨3, false, 0, 3⟩
    ∧ (2 : Nat) ≤ 3 :=
  ⟨(retry_count_discipline 9 ⟨2, false, 0, 2⟩ rfl).1,
   (retry_count_discipline 9 ⟨2, false, 0, 2⟩ rfl).2.1 (by decide),
   (retry_count_discipline 9 ⟨2, false, 0, 2⟩ rfl).2.2 (.probe false) ⟨3, false, 0, 3⟩
     ((retry_count_discipline 9 ⟨2, false, 0, 2⟩ rfl).2.1 (by decide)) (by decide)⟩

/-- C4: with a health-check URL configured and no `expectedStatusCodes`, a
response is healthy exactly when its status lies in [200, 299], and any
network/transport failure yields `false`. -/
theorem http_default_rule (cfg : Config) (env : ProbeEnv)
    (hurl : truthyStr cfg.healthCheckUrl = true)
    (hcodes : cfg.expectedStatusCodes = none) :
    (∀ st, env.http = .response st →
        (checkHealth cfg env = .ok true ↔ 200 ≤ st ∧ st ≤ 299))
    ∧ (env.http = .netFailure → checkHealth cfg env = .ok false) := by
  constructor
  · intro st hresp
    simp [checkHealth, hurl, hcodes, fetchUrl, hresp, tryCatch, respOk]
  · intro hresp
    simp [checkHealth, hurl, hcodes, fetchUrl, hresp, tryCatch]

/-- C4 witness: status 204 is healthy under the default rule, status 500 is
not, and a network failure is not. -/
theorem http_default_rule_witness :
    (checkHealth cfgUrlOnly (envResp 204) = .ok true ↔ 200 ≤ 204 ∧ 204 ≤ 299)
    ∧ (checkHealth cfgUrlOnly (envResp 500) = .ok true ↔ 200 ≤ 500 ∧ 500 ≤ 299)
    ∧ checkHealth cfgUrlOnly envNetFail = .ok false :=
  ⟨(http_default_rule cfgUrlOnly (envResp 204) (by decide) rfl).1 204 rfl,
   (http_default_rule cfgUrlOnly (envResp 500) (by decide) rfl).1 500 rfl,
   (http_default_rule cfgUrlOnly envNetFail (by decide) rfl).2 rfl⟩

/-- C5: with a health-check URL and an explicit `expectedStatusCodes`, the
verdict is membership of the response status in that set — the default 2xx
rule never applies. -/
theorem http_expected_codes_rule (cfg : Config) (env : ProbeEnv)
    (codes : List Nat) (st : Nat)
    (hurl : truthyStr cfg.healthCheckUrl = true)
    (hcodes : cfg.expectedStatusCodes = some codes)
    (hresp : env.http = .response st) :
    checkHealth cfg env = .ok (codes.contains st) := by
  simp [checkHealth, hurl, hcodes, fetchUrl, hresp, tryCatch]

/-- C5 witness: a 200 response against `{201, 204}` is unhealthy even though
200 is a 2xx status, and a 201 response against `{200, 201, 204}` is
healthy. -/
theorem http_expected_codes_witness :
    checkHealth (cfgCodes [201, 204]) (envResp 200) = .ok false
    ∧ checkHealth (cfgCodes [200, 201, 204]) (envResp 201) = .ok true :=
  ⟨http_expected_codes_rule (cfgCodes [201, 204]) (envResp 200) [201, 204] 200
      (by decide) rfl rfl,
   http_expected_codes_rule (cfgCodes [200, 201, 204]) (envResp 201)
      [200, 201, 204] 201 (by decide) rfl rfl⟩

/-- C6: with a command probe configured (and no URL), the verdict is the
subprocess's success flag — exit status zero means healthy — and a failure
to launch the command yields `false` rather than an error. -/
theorem command_probe_rule (cfg : Config) (env : ProbeEnv)
    (hurl : truthyStr cfg.healthCheckUrl = false)
    (hcmd : cfg.healthCheckCommand.isSome = true) :
    (∀ ok, env.cmd = .exited ok → checkHealth cfg env = .ok ok)
    ∧ (env.cmd = .launchFailure → checkHealth cfg env = .ok false) := by
  constructor
  · intro ok hc
    simp [checkHealth, hurl, hcmd, runHealthCommand, hc, tryCatch]
  · intro hc
    simp [checkHealth, hurl, hcmd, runHealthCommand, hc, tryCatch]

/-- C6 witness: exit 0 is healthy, exit non-zero is not, launch failure is
not. -/
theorem command_probe_rule_witness :
    checkHealth cfgCmd (envCmd true) = .ok true
    ∧ checkHealth cfgCmd (envCmd false) = .ok false
    ∧ checkHealth cfgCmd envCmdLaunchFail = .ok false :=
  ⟨(command_probe_rule cfgCmd (envCmd true) rfl rfl).1 true rfl,
   (command_probe_rule cfgCmd (envCmd false) rfl rfl).1 false rfl,
   (command_probe_rule cfgCmd envCmdLaunchFail rfl rfl).2 rfl⟩

/-- C7: with no probe configured, the verdict is `false` when no process was
ever started, `true` while the spawned child has not exited (the status race
resolves to `undefined`), and `false` once it has exited. -/
theorem liveness_probe_rule (cfg : Config) (env : ProbeEnv)
    (hurl : truthyStr cfg.healthCheckUrl = false)
    (hcmd : cfg.healthCheckCommand = none) :
    (env.processPresent = false → checkHealth cfg env = .ok false)
    ∧ (env.processPresent = true → env.status = .stillRunning →
        checkHealth cfg env = .ok true)
    ∧ (env.processPresent = true → env.status = .exitedAlready →
        checkHealth cfg env = .ok false) := by
  refine ⟨fun hp => ?_, fun hp hst => ?_, fun hp hst => ?_⟩
  · simp [checkHealth, hurl, hcmd, hp]
  · simp [checkHealth, hurl, hcmd, hp, raceStatus, hst, tryCatch]
  · simp [checkHealth, hurl, hcmd, hp, raceStatus, hst, tryCatch]

/-- C7 witness: no process yet means unhealthy; a live child is healthy; an
exited child is unhealthy. -/
theorem liveness_probe_rule_witness :
    checkHealth cfgBare (envLive false .stillRunning) = .ok false
    ∧ checkHealth cfgBare (envLive true .stillRunning) = .ok true
    ∧ checkHealth cfgBare (envLive true .exitedAlready) = .ok false :=
  ⟨(liveness_probe_rule cfgBare (envLive false .stillRunning) rfl rfl).1 rfl,
   (liveness_probe_rule cfgBare (envLive true .stillRunning) rfl rfl).2.1 rfl rfl,
   (liveness_probe_rule cfgBare (envLive true .exitedAlready) rfl rfl).2.2 rfl rfl⟩

/-- C8: for every configuration and every probe outcome — network errors,
launch failures, and status-query failures included — `checkHealth` returns
a boolean verdict and never propagates an exception. -/
theorem check_health_never_throws (cfg : Config) (env : ProbeEnv) :
    ∃ b, checkHealth cfg env = .ok b := by
  by_cases hurl : truthyStr cfg.healthCheckUrl = true
  · cases henv : env.http with
    | response st =>
      cases hc : cfg.expectedStatusCodes with
      | some codes =>
        exact ⟨codes.contains st, by simp [checkHealth, hurl, fetchUrl, henv, hc, tryCatch]⟩
      | none =>
        exact ⟨respOk st, by simp [checkHealth, hurl, fetchUrl, henv, hc, tryCatch]⟩
    | netFailure =>
      exact ⟨false, by simp [checkHealth, hurl, fetchUrl, henv, tryCatch]⟩
  · replace hurl : truthyStr cfg.healthCheckUrl = false := by
      revert hurl; cases truthyStr cfg.healthCheckUrl <;> simp
    by_cases hcmd : cfg.healthCheckCommand.isSome = true
    · cases henv : env.cmd with
      | exited ok =>
        exact ⟨ok, by simp [checkHealth, hurl, hcmd, runHealthCommand, henv, tryCatch]⟩
      | launchFailure =>
        exact ⟨false, by simp [checkHealth, hurl, hcmd, runHealthCommand, henv, tryCatch]⟩
    · replace hcmd : cfg.healthCheckCommand.isSome = false := by
        revert hcmd; cases cfg.healthCheckCommand.isSome <;> simp
      cases hp : env.processPresent with
      | false => exact ⟨false, by simp [checkHealth, hurl, hcmd, hp]⟩
      | true =>
        cases hst : env.status with
        | stillRunning =>
          exact ⟨true, by simp [checkHealth, hurl, hcmd, hp, raceStatus, hst, tryCatch]⟩
        | exitedAlready =>
          exact ⟨false, by simp [checkHealth, hurl, hcmd, hp, raceStatus, hst, tryCatch]⟩
        | queryThrows =>
          exact ⟨false, by simp [checkHealth, hurl, hcmd, hp, raceStatus, hst, tryCatch]⟩

/-- Running the loop with `maxRetries = -1` over `n` consecutive unhealthy
probes from any live state: every probe restarts, nothing stops or fails. -/
theorem monitorRun_unlimited_unhealthy (n : Nat) :
    ∀ r a b : Nat,
      monitorRun (-1) ⟨r, false, a, b⟩ (List.replicate n (.probe false))
        = .running ⟨r + n, false, a, b + n⟩ := by
  induction n with
  | zero =>
    intro r a b
    simp [monitorRun, List.replicate]
  | succ n ih =>
    intro r a b
    rw [List.replicate_succ]
    have hstep : monitorStep (-1) ⟨r, false, a, b⟩ (.probe false)
        = .running ⟨r + 1, false, a, b + 1⟩ := by
      simp [monitorStep]
    simp only [monitorRun, hstep]
    rw [ih (r + 1) a (b + 1)]
    have h1 : r + 1 + n = r + (n + 1) := by omega
    have h2 : b + 1 + n = b + (n + 1) := by omega
    rw [h1, h2]

/-- C9: with `maxRetries = -1`, a live unhealthy probe always restarts
(incrementing `retryCount` and the restart count), and an arbitrarily long
run of `n` consecutive unhealthy probes from the initial state never reaches
the terminal failure — the loop is still running with `n` restarts done. -/
theorem unlimited_retries_restart (n : Nat) (s : LoopState)
    (hab : s.aborted = false) :
    monitorStep (-1) s (.probe false)
      = .running { s with retryCount := s.retryCount + 1,
                          restarts := s.restarts + 1 }
    ∧ monitorRun (-1) initState (List.replicate n (.probe false))
      = .running ⟨n, false, 0, n⟩ := by
  constructor
  · simp [monitorStep, hab]
  · have h := monitorRun_unlimited_unhealthy n 0 0 0
    simpa [initState] using h

/-- C9 witness: a long failure streak (five probes) leaves the loop running
with five restarts, and the single-step restart holds at `retryCount = 7`. -/
theorem unlimited_retries_restart_witness :
    monitorStep (-1) ⟨7, false, 0, 7⟩ (.probe false) = .running ⟨8, false, 0, 8⟩
    ∧ monitorRun (-1) initState (List.replicate 5 (.probe false))
      = .running ⟨5, false, 0, 5⟩ :=
  ⟨(unlimited_retries_restart 5 ⟨7, false, 0, 7⟩ rfl).1,
   (unlimited_retries_restart 5 ⟨7, false, 0, 7⟩ rfl).2⟩

/-- C10: `Number(args["max-retries"]) || -1` maps a conversion result of `0`
or `NaN` to `-1` (unlimited), so a retry budget of exactly zero can never
reach the `ProcessManager` from the command line. -/
theorem max_retries_zero_coerced :
    (∀ x, (x = some 0 ∨ x = none) → mainMaxRetries x = -1)
    ∧ ∀ x, mainMaxRetries x ≠ 0 := by
  constructor
  · rintro x (rfl | rfl) <;> simp [mainMaxRetries]
  · intro x
    cases x with
    | none => simp [mainMaxRetries]
    | some v =>
      by_cases hv : v = 0
      · simp [mainMaxRetries, hv]
      · simp [mainMaxRetries, hv]

/-- C10 witness: `--max-retries 0` (conversion result `0`) yields `-1`, and
no conversion result yields a zero budget. -/
theorem max_retries_zero_coerced_witness :
    mainMaxRetries (some 0) = -1 ∧ mainMaxRetries (some 0) ≠ 0 :=
  ⟨max_retries_zero_coerced.1 (some 0) (Or.inl rfl),
   max_retries_zero_coerced.2 (some 0)⟩

end Restarter
